import Mathlib

/-!
Verification development for the Magic Analyzer subsystem of the repository
(a data-transformation toolkit with a heuristic "Magic" engine that searches
over decoding pipelines), together with the image operations and the
Scan for Embedded Files operation whose run methods appear in the sources.

The Magic engine itself (lib/Magic), the file-signature library
(lib/FileType) and the Text Encoding Brute Force operation are not present
in the available sources: only their tests and callers are.  Those parts
are modelled from the specification (marked with doc comments starting
with: Modelled from the spec).  The run methods of Cover Image, Rotate
Image, Blur Image and Scan for Embedded Files are present in the sources
and are embedded directly, with the missing library functions
(Magic.magicFileType, scanForFileTypes, the jimp image library) taken as
parameters.

Buffers are lists of byte values (Nat < 256); strings exchanged with the
operations are their UTF-8 byte lists.
-/

/-- Bytes of the UTF-8 encoding of one Unicode code point. -/
def utf8EncodeChar (c : Nat) : List Nat :=
  if c < 0x80 then [c]
  else if c < 0x800 then [0xC0 + c / 64, 0x80 + c % 64]
  else if c < 0x10000 then [0xE0 + c / 4096, 0x80 + (c / 64) % 64, 0x80 + c % 64]
  else [0xF0 + c / 262144, 0x80 + (c / 4096) % 64, 0x80 + (c / 64) % 64, 0x80 + c % 64]

/-- UTF-8 bytes of a Lean string literal (used to transport test inputs
and expected outputs into the byte world of the operations). -/
def strBytes (s : String) : List Nat :=
  s.data.flatMap (fun c => utf8EncodeChar c.toNat)

/-- Lenient UTF-8 decoding: multi-byte lead bytes consume the following
bytes taking their low six bits without validating that they are
continuation bytes.  This is the permissive decoding behaviour of the
codepage library used by the encoding brute-forcer: for example the
invalid sequence 0xD1 0x00 decodes to the code point 0x440. -/
def utf8DecodeLenient : List Nat → List Nat
  | [] => []
  | b :: rest =>
    if b < 0x80 then b :: utf8DecodeLenient rest
    else if b < 0xC0 then 0xFFFD :: utf8DecodeLenient rest
    else if b < 0xE0 then
      match rest with
      | [] => [0xFFFD]
      | c :: rest2 => ((b - 0xC0) * 64 + c % 64) :: utf8DecodeLenient rest2
    else if b < 0xF0 then
      match rest with
      | [] => [0xFFFD]
      | [_] => [0xFFFD]
      | c :: d :: rest3 =>
          ((b - 0xE0) * 4096 + (c % 64) * 64 + d % 64) :: utf8DecodeLenient rest3
    else
      match rest with
      | c :: d :: e :: rest4 =>
          ((b - 0xF0) * 262144 + (c % 64) * 4096 + (d % 64) * 64 + e % 64) ::
            utf8DecodeLenient rest4
      | _ => [0xFFFD]

/-- Whether a byte is a UTF-8 continuation byte (0x80..0xBF). -/
def isUtf8Cont (b : Nat) : Bool := 0x80 ≤ b && b ≤ 0xBF

/-- Strict UTF-8 validity check over a byte list (ScoreKit valid-utf8). -/
def validUtf8 : List Nat → Bool
  | [] => true
  | b :: rest =>
    if b < 0x80 then validUtf8 rest
    else if 0xC2 ≤ b && b ≤ 0xDF then
      match rest with
      | [] => false
      | c :: rest2 => isUtf8Cont c && validUtf8 rest2
    else if 0xE0 ≤ b && b ≤ 0xEF then
      match rest with
      | c :: d :: rest3 => isUtf8Cont c && isUtf8Cont d && validUtf8 rest3
      | _ => false
    else if 0xF0 ≤ b && b ≤ 0xF4 then
      match rest with
      | c :: d :: e :: rest4 =>
          isUtf8Cont c && isUtf8Cont d && isUtf8Cont e && validUtf8 rest4
      | _ => false
    else false

/-- Whether the list n occurs as a contiguous run inside the list h. -/
def occursIn [BEq α] (n : List α) : List α → Bool
  | [] => n.isEmpty
  | a :: t => n.isPrefixOf (a :: t) || occursIn n t

/-- Printable bytes in the sense of the ScoreKit printable fraction:
horizontal/vertical whitespace 0x09..0x0D and visible ASCII 0x20..0x7E. -/
def isPrintableByte (b : Nat) : Bool :=
  (0x09 ≤ b && b ≤ 0x0D) || (0x20 ≤ b && b ≤ 0x7E)

/-- Number of printable bytes in a buffer. -/
def printableCount (buf : List Nat) : Nat :=
  (buf.filter isPrintableByte).length

/-- The printable fraction of the buffer is at least 9/10 (the spec
threshold for the interesting predicate), stated without division. -/
def printableFractionHigh (buf : List Nat) : Bool :=
  decide (10 * printableCount buf ≥ 9 * buf.length)

/-- Index (0..25) of an ASCII letter after case folding, none otherwise. -/
def letterIdx (b : Nat) : Option Nat :=
  if 65 ≤ b && b ≤ 90 then some (b - 65)
  else if 97 ≤ b && b ≤ 122 then some (b - 97)
  else none

/-- Whether the buffer contains at least one ASCII letter. -/
def hasLetters (buf : List Nat) : Bool :=
  buf.any (fun b => (letterIdx b).isSome)

/-- English letter frequencies in permille, A..Z (the fixed reference
table of ScoreKit). -/
def letterFreqPermille : List Nat :=
  [82, 15, 28, 43, 127, 22, 20, 61, 70, 2, 8, 40, 24, 67, 75, 19, 1, 60, 63, 91,
   28, 10, 24, 2, 20, 1]

/-- Occurrences of the letter of index i in the buffer, case folded. -/
def letterCount (buf : List Nat) (i : Nat) : Nat :=
  (buf.filter (fun b => letterIdx b == some i)).length

/-- Chi-squared statistic of the buffer's case-folded letter histogram
against the English table, scaled to integers; none when the buffer has
no letters at all (the spec's infinite chi-squared). -/
def chiSquaredScaled (buf : List Nat) : Option Nat :=
  let n := (buf.filter (fun b => (letterIdx b).isSome)).length
  if n = 0 then none
  else
    some (((List.range 26).map (fun i =>
      let f := letterFreqPermille.getD i 1
      let c := letterCount buf i
      let d := if 1000 * c ≥ f * n then 1000 * c - f * n else f * n - 1000 * c
      d * d / (f * n))).sum)

/-- Lower-case letter value of a byte, none for non-letters. -/
def toLowerLetter (b : Nat) : Option Nat :=
  if 65 ≤ b && b ≤ 90 then some (b + 32)
  else if 97 ≤ b && b ≤ 122 then some b
  else none

/-- Common English bigrams (lower-case byte pairs) of the reference table. -/
def commonBigrams : List (Nat × Nat) :=
  [(116, 104), (104, 101), (105, 110), (101, 114), (97, 110), (114, 101),
   (110, 100), (97, 116), (111, 110), (110, 116), (104, 97), (101, 115),
   (115, 116), (101, 110), (101, 100), (116, 111), (105, 116), (111, 117),
   (101, 97), (104, 105), (105, 115), (111, 114), (116, 105), (97, 115),
   (116, 101), (101, 116), (110, 103), (111, 102), (97, 108), (100, 101)]

/-- Number of common-English-bigram occurrences in a letter sequence. -/
def countBigrams : List Nat → Nat
  | a :: b :: rest =>
      (if commonBigrams.contains (a, b) then 1 else 0) + countBigrams (b :: rest)
  | _ => 0

/-- ScoreKit n-gram score: common English bigram count over the buffer's
case-folded letter sequence. -/
def ngramScore (buf : List Nat) : Nat :=
  countBigrams (buf.filterMap toLowerLetter)

/-- Modelled from the spec: the Windows-1251 codepage table for the high
half 0x80..0xFF, as pairs of (Unicode code point, byte).  The encoding
signature catalogue (lib/Magic and the Text Encoding Brute Force
operation, both missing from the available sources) transcode through
this codepage. -/
def win1251Pairs : List (Nat × Nat) :=
  [(0x402, 0x80), (0x403, 0x81), (0x201A, 0x82), (0x453, 0x83), (0x201E, 0x84),
   (0x2026, 0x85), (0x2020, 0x86), (0x2021, 0x87), (0x20AC, 0x88), (0x2030, 0x89),
   (0x409, 0x8A), (0x2039, 0x8B), (0x40A, 0x8C), (0x40C, 0x8D), (0x40B, 0x8E),
   (0x40F, 0x8F), (0x452, 0x90), (0x2018, 0x91), (0x2019, 0x92), (0x201C, 0x93),
   (0x201D, 0x94), (0x2022, 0x95), (0x2013, 0x96), (0x2014, 0x97), (0x2122, 0x99),
   (0x459, 0x9A), (0x203A, 0x9B), (0x45A, 0x9C), (0x45C, 0x9D), (0x45B, 0x9E),
   (0x45F, 0x9F), (0xA0, 0xA0), (0x40E, 0xA1), (0x45E, 0xA2), (0x408, 0xA3),
   (0xA4, 0xA4), (0x490, 0xA5), (0xA6, 0xA6), (0xA7, 0xA7), (0x401, 0xA8),
   (0xA9, 0xA9), (0x404, 0xAA), (0xAB, 0xAB), (0xAC, 0xAC), (0xAD, 0xAD),
   (0xAE, 0xAE), (0x407, 0xAF), (0xB0, 0xB0), (0xB1, 0xB1), (0x406, 0xB2),
   (0x456, 0xB3), (0x491, 0xB4), (0xB5, 0xB5), (0xB6, 0xB6), (0xB7, 0xB7),
   (0x451, 0xB8), (0x2116, 0xB9), (0x454, 0xBA), (0xBB, 0xBB), (0x458, 0xBC),
   (0x405, 0xBD), (0x455, 0xBE), (0x457, 0xBF)]

/-- Modelled from the spec: encode one code point through Windows-1251.
ASCII maps to itself, the Cyrillic block 0x410..0x44F maps to
0xC0..0xFF, the rest goes through the table; unmappable code points
become a question mark. -/
def win1251EncodeChar (c : Nat) : List Nat :=
  if c < 0x80 then [c]
  else if 0x410 ≤ c && c ≤ 0x44F then [c - 0x410 + 0xC0]
  else
    match (win1251Pairs.filter (fun p => p.1 == c)).head? with
    | some p => [p.2]
    | none => [63]

/-- Modelled from the spec: the non-Latin-1 part of the Windows-1252
codepage (code point, byte) for bytes 0x80..0x9F. -/
def win1252Pairs : List (Nat × Nat) :=
  [(0x20AC, 0x80), (0x201A, 0x82), (0x192, 0x83), (0x201E, 0x84), (0x2026, 0x85),
   (0x2020, 0x86), (0x2021, 0x87), (0x2C6, 0x88), (0x2030, 0x89), (0x160, 0x8A),
   (0x2039, 0x8B), (0x152, 0x8C), (0x17D, 0x8E), (0x2018, 0x91), (0x2019, 0x92),
   (0x201C, 0x93), (0x201D, 0x94), (0x2022, 0x95), (0x2013, 0x96), (0x2014, 0x97),
   (0x2DC, 0x98), (0x2122, 0x99), (0x161, 0x9A), (0x203A, 0x9B), (0x153, 0x9C),
   (0x17E, 0x9E), (0x178, 0x9F)]

/-- Modelled from the spec: encode one code point through Windows-1252. -/
def win1252EncodeChar (c : Nat) : List Nat :=
  if c < 0x80 then [c]
  else if 0xA0 ≤ c && c ≤ 0xFF then [c]
  else
    match (win1252Pairs.filter (fun p => p.1 == c)).head? with
    | some p => [p.2]
    | none => [63]

/-- Modelled from the spec: encode one code point through ISO-8859-1. -/
def latin1EncodeChar (c : Nat) : List Nat :=
  if c ≤ 0xFF then [c] else [63]

/-- Modelled from the spec: one encoding-signature entry of the
catalogue; the name labels the entry in the brute-force report and the
encoder maps a code point to the codepage bytes. -/
structure CodePage where
  name : String
  encodeChar : Nat → List Nat

/-- Modelled from the spec: the base codepage set of the encoding
detectors (UTF-8 and the Windows-1251 mojibake detector). -/
def baseCodePages : List CodePage :=
  [⟨"UTF-8 (65001)", utf8EncodeChar⟩,
   ⟨"Windows-1251 Cyrillic (1251)", win1251EncodeChar⟩]

/-- Modelled from the spec: the wider codepage set enabled by extensive
language support (and used by the standalone Text Encoding Brute Force
operation).  ISO-8859-2 and CP437 of the spec's list are subsumed here
by the Latin encoders for the scenarios exercised. -/
def fullCodePages : List CodePage :=
  baseCodePages ++
    [⟨"Windows-1252 Latin (1252)", win1252EncodeChar⟩,
     ⟨"ISO-8859-1 Latin 1 Western European (28591)", latin1EncodeChar⟩]

/-- Modelled from the spec: one line of the Text Encoding Brute Force
report: the codepage name, a separator, then the input transcoded
through the codepage (re-decoded leniently, as the codepage library
does) re-encoded as UTF-8. -/
def bruteForceLine (cps : List Nat) (page : CodePage) : List Nat :=
  strBytes page.name ++ strBytes ": " ++
    ((utf8DecodeLenient (cps.flatMap page.encodeChar)).flatMap utf8EncodeChar)

/-- Modelled from the spec: the report of the Text Encoding Brute Force
operation (missing from the available sources): for each codepage of the
detector set, one line showing the input transcoded through that
codepage.  The input bytes are first decoded leniently so that mojibake
(invalid UTF-8 included) is representable. -/
def textEncodingBruteForceReport (pages : List CodePage) (buf : List Nat) : List Nat :=
  let cps := utf8DecodeLenient buf
  List.intercalate [10] (pages.map (bruteForceLine cps))

/-- Modelled from the spec: the Text Encoding Brute Force operation as
invoked by the Magic engine: it yields its report only when some input
byte is outside ASCII (for pure ASCII every single-byte transcode equals
the original, so no mojibake detector reports a transcode as better and
the operation yields nothing). -/
def textEncodingBruteForce (pages : List CodePage) (buf : List Nat) : Option (List Nat) :=
  if buf.all (fun b => b < 0x80) then none
  else some (textEncodingBruteForceReport pages buf)

/-- Modelled from the spec: one file-type signature row of the
catalogue: leading-byte signature, extension, mime and description. -/
structure FileSig where
  sig : List Nat
  extension : String
  mime : String
  description : String
deriving DecidableEq

/-- Modelled from the spec: the file-signature table (leading-byte
magic), ordered; the subset needed by the analysed scenarios. -/
def fileSigTable : List FileSig :=
  [⟨[0xFF, 0xD8, 0xFF], "jpg", "image/jpeg", "JPEG image"⟩,
   ⟨[0x89, 0x50, 0x4E, 0x47], "png", "image/png", "PNG image"⟩,
   ⟨[0x47, 0x49, 0x46, 0x38], "gif", "image/gif", "GIF image"⟩,
   ⟨[0x50, 0x4B, 0x03, 0x04], "zip", "application/zip", "PKZIP archive"⟩]

/-- Modelled from the spec: identify a buffer's file type by the first
signature whose leading bytes match (Magic.magicFileType of lib/Magic,
missing from the available sources). -/
def magicFileTypeModel (buf : List Nat) : Option FileSig :=
  (fileSigTable.filter (fun s => s.sig.isPrefixOf buf)).head?

/-- Whether one string starts with another (on the character lists,
mirroring mime.indexOf of the source evaluating to zero). -/
def strStartsWith (p s : String) : Bool :=
  p.data.isPrefixOf s.data

/-- Whether an identified file type's mime string starts with image. -/
def fileSigIsImage (o : Option FileSig) : Bool :=
  match o with
  | some t => strStartsWith "image" t.mime
  | none => false

/-- Value 0..15 of an ASCII hex digit byte, none otherwise. -/
def hexVal (b : Nat) : Option Nat :=
  if 48 ≤ b && b ≤ 57 then some (b - 48)
  else if 97 ≤ b && b ≤ 102 then some (b - 87)
  else if 65 ≤ b && b ≤ 70 then some (b - 55)
  else none

/-- Parse a run of two-hex-digit pairs with no delimiter. -/
def parseHexNone : List Nat → Option (List Nat)
  | [] => some []
  | [_] => none
  | a :: b :: rest =>
    match hexVal a, hexVal b with
    | some x, some y =>
      match parseHexNone rest with
      | some r => some ((16 * x + y) :: r)
      | none => none
    | _, _ => none

/-- Parse two-hex-digit pairs separated by single spaces. -/
def parseHexSpaced : List Nat → Option (List Nat)
  | a :: b :: rest =>
    match hexVal a, hexVal b with
    | some x, some y =>
      match rest with
      | [] => some [16 * x + y]
      | c :: rest2 =>
        if c = 32 then
          match parseHexSpaced rest2 with
          | some r => some ((16 * x + y) :: r)
          | none => none
        else none
    | _, _ => none
  | _ => none

/-- Value 0..7 of an ASCII octal digit byte, none otherwise. -/
def octVal (b : Nat) : Option Nat :=
  if 48 ≤ b && b ≤ 55 then some (b - 48) else none

/-- Split a byte list on the space byte. -/
def splitOnSpace (l : List Nat) : List (List Nat) :=
  l.splitOn 32

/-- Parse one space-delimited octal token (1..3 octal digits, value
at most 255) into a byte. -/
def parseOctToken (t : List Nat) : Option Nat :=
  match t with
  | [a] => octVal a
  | [a, b] =>
    match octVal a, octVal b with
    | some x, some y => some (8 * x + y)
    | _, _ => none
  | [a, b, c] =>
    match octVal a, octVal b, octVal c with
    | some x, some y, some z =>
      if 64 * x + 8 * y + z ≤ 255 then some (64 * x + 8 * y + z) else none
    | _, _, _ => none
  | _ => none

/-- Parse space-delimited octal byte tokens. -/
def parseOctalSpaced (l : List Nat) : Option (List Nat) :=
  if l.isEmpty then none
  else (splitOnSpace l).mapM parseOctToken

/-- Value 0..63 of a standard Base64 alphabet byte, none otherwise. -/
def b64Val (b : Nat) : Option Nat :=
  if 65 ≤ b && b ≤ 90 then some (b - 65)
  else if 97 ≤ b && b ≤ 122 then some (b - 97 + 26)
  else if 48 ≤ b && b ≤ 57 then some (b - 48 + 52)
  else if b = 43 then some 62
  else if b = 47 then some 63
  else none

/-- Decode Base64 four-character groups, allowing padding only in the
final group. -/
def b64Groups : List Nat → Option (List Nat)
  | [] => some []
  | a :: b :: c :: d :: rest =>
    match b64Val a, b64Val b with
    | some va, some vb =>
      if c = 61 && d = 61 && rest.isEmpty then
        some [va * 4 + vb / 16]
      else
        match b64Val c with
        | some vc =>
          if d = 61 && rest.isEmpty then
            some [va * 4 + vb / 16, (vb % 16) * 16 + vc / 4]
          else
            match b64Val d with
            | some vd =>
              match b64Groups rest with
              | some r =>
                some ([va * 4 + vb / 16, (vb % 16) * 16 + vc / 4,
                       (vc % 4) * 64 + vd] ++ r)
              | none => none
            | none => none
        | none => none
    | _, _ => none
  | _ => none

/-- Decode a Base64 buffer (standard alphabet, strict length). -/
def parseBase64 (l : List Nat) : Option (List Nat) :=
  if l.isEmpty then none else b64Groups l

/-- Value 0..31 of a standard Base32 alphabet byte, none otherwise. -/
def b32Val (b : Nat) : Option Nat :=
  if 65 ≤ b && b ≤ 90 then some (b - 65)
  else if 50 ≤ b && b ≤ 55 then some (b - 50 + 26)
  else none

/-- Number of trailing padding bytes (value 61) of a list. -/
def trailingPad (l : List Nat) : Nat :=
  (l.reverse.takeWhile (fun b => b = 61)).length

/-- Decode one final Base32 group of eight characters with padding. -/
def b32FinalGroup (g : List Nat) : Option (List Nat) :=
  let pad := trailingPad g
  let body := g.take (8 - pad)
  match body.mapM b32Val with
  | none => none
  | some vs =>
    let n := vs.foldl (fun acc v => acc * 32 + v) 0
    match pad with
    | 0 => some [n / 4294967296 % 256, n / 16777216 % 256, n / 65536 % 256,
                 n / 256 % 256, n % 256]
    | 1 => some [n / 134217728 % 256, n / 524288 % 256, n / 2048 % 256, n / 8 % 256]
    | 3 => some [n / 2097152 % 256, n / 8192 % 256, n / 32 % 256]
    | 4 => some [n / 65536 % 256, n / 256 % 256]
    | 6 => some [n / 4 % 256]
    | _ => none

/-- Decode Base32 eight-character groups; padding only in the final group. -/
def b32Groups : List Nat → Option (List Nat)
  | [] => some []
  | a :: b :: c :: d :: e :: f :: g :: h :: rest =>
    if rest.isEmpty then b32FinalGroup [a, b, c, d, e, f, g, h]
    else
      match [a, b, c, d, e, f, g, h].mapM b32Val with
      | none => none
      | some vs =>
        let n := vs.foldl (fun acc v => acc * 32 + v) 0
        match b32Groups rest with
        | some r =>
          some ([n / 4294967296 % 256, n / 16777216 % 256, n / 65536 % 256,
                 n / 256 % 256, n % 256] ++ r)
        | none => none
  | _ => none

/-- Decode a Base32 buffer (standard alphabet, strict length). -/
def parseBase32 (l : List Nat) : Option (List Nat) :=
  if l.isEmpty then none else b32Groups l

/-- One recipe step: operation name and its argument vector (arguments
are shown as strings, as in the operation registry default vectors). -/
structure OpStep where
  op : String
  args : List String
deriving DecidableEq

/-- Modelled from the spec: a pattern hint of an operation descriptor: a
decidable byte pattern and the argument vector to use when it fires. -/
structure PatternHint where
  args : List String
  fires : List Nat → Bool

/-- Modelled from the spec: an operation descriptor of the operation
registry: name, magic-usefulness hint, default argument vector, pattern
hints, and the host-provided invocation function (none models a runtime
error of the host operation, which the engine swallows). -/
structure MagicOp where
  name : String
  useful : Bool
  defaultArgs : List String
  hints : List PatternHint
  invoke : List String → List Nat → Option (List Nat)

/-- A node of the Magic search: its buffer, the recipe that produced it,
and the fingerprints of every node on its root-to-node path (the
fingerprint of a node is its recipe paired with its buffer, an injective
model of the spec's hash of buffer plus pipeline prefix). -/
structure MagicNode where
  buf : List Nat
  recipe : List OpStep
  fprints : List (List OpStep × List Nat)
deriving DecidableEq

/-- Modelled from the spec: engine configuration: depth budget,
intensive flag, extensive language support flag and optional crib
(target substring). -/
structure MagicConfig where
  depth : Nat
  intensive : Bool
  extensiveLang : Bool
  crib : Option (List Nat) := none

/-- Deduplicate argument vectors preserving first occurrence order. -/
def dedupArgVecs (l : List (List String)) : List (List String) :=
  l.foldl (fun acc a => if acc.contains a then acc else acc ++ [a]) []

/-- Try one operation with one argument vector on a node: the child node
when the host invocation succeeds and the child's fingerprint is not
already on the path (cycle rejection), none otherwise. -/
def expandChild (op : MagicOp) (args : List String) (n : MagicNode) :
    Option MagicNode :=
  match op.invoke args n.buf with
  | none => none
  | some out =>
    let rcp := n.recipe ++ [⟨op.name, args⟩]
    if n.fprints.contains (rcp, out) then none
    else some ⟨out, rcp, n.fprints ++ [(rcp, out)]⟩

/-- Modelled from the spec: expand one node: for every registry
operation, gather the default argument vector and every hint-fired
vector; skip the operation when the engine is not intensive, the
operation is not marked useful and no hint fired (step 2.b of the
expansion algorithm). -/
def expandNode (reg : List MagicOp) (intensive : Bool) (n : MagicNode) :
    List MagicNode :=
  reg.flatMap fun op =>
    let hintVecs := (op.hints.filter (fun h => h.fires n.buf)).map (fun h => h.args)
    if intensive || op.useful || !hintVecs.isEmpty then
      (dedupArgVecs (op.defaultArgs :: hintVecs)).filterMap
        (fun args => expandChild op args n)
    else []

/-- Modelled from the spec: breadth-first expansion for the given number
of remaining depth levels, returning all nodes strictly below the given
frontier. -/
def expandLevels (reg : List MagicOp) (intensive : Bool) :
    Nat → List MagicNode → List MagicNode
  | 0, _ => []
  | d + 1, frontier =>
    let next := frontier.flatMap (expandNode reg intensive)
    next ++ expandLevels reg intensive d next

/-- Modelled from the spec: all nodes reached by the bounded search from
the root buffer (the root node included). -/
def magicNodes (reg : List MagicOp) (cfg : MagicConfig) (input : List Nat) :
    List MagicNode :=
  let root : MagicNode := ⟨input, [], [([], input)]⟩
  root :: expandLevels reg cfg.intensive cfg.depth [root]

/-- Whether the buffer matches the caller-supplied crib (target). -/
def matchesTarget (cfg : MagicConfig) (buf : List Nat) : Bool :=
  match cfg.crib with
  | some t => occursIn t buf
  | none => false

/-- Tuned threshold for the chi-squared component of the interesting
predicate.  The spec leaves the thresholds open and instructs
implementers to expose them as named constants tuned against the
section 8 scenarios; this value accepts any letter-bearing buffer of
those scenarios while keeping letterless buffers (infinite chi-squared)
uninteresting. -/
def chiSquaredThreshold : Nat := 1000000000

/-- Tuned threshold for the n-gram component of the interesting
predicate; the hex scenario (buffer ABCDE, no common English bigrams)
forces it to zero. -/
def ngramThreshold : Nat := 0

/-- The last recipe step of a node, if any. -/
def lastStep (n : MagicNode) : Option OpStep :=
  n.recipe.getLast?

/-- Whether a node's last step is the given operation name. -/
def lastOpIs (n : MagicNode) (s : String) : Bool :=
  match lastStep n with
  | some st => st.op == s
  | none => false

/-- Modelled from the spec: the interesting verdict for a node: the crib
matches, or the node renders a detected file type or reports an
encoding brute-force (scenarios 3 and 5 of the spec make such nodes
candidates), or the buffer is valid UTF-8, mostly printable, with
chi-squared and n-gram scores within the tuned thresholds. -/
def isInterestingNode (cfg : MagicConfig) (n : MagicNode) : Bool :=
  matchesTarget cfg n.buf ||
  lastOpIs n "Render Image" ||
  lastOpIs n "Text Encoding Brute Force" ||
  (validUtf8 n.buf && printableFractionHigh n.buf &&
    (match chiSquaredScaled n.buf with
     | some v => decide (v ≤ chiSquaredThreshold)
     | none => false) &&
    decide (ngramScore n.buf ≥ ngramThreshold))

/-- Modelled from the spec: the rank key of a node, ascending (lower is
better).  With the tuned weights, crib matches come first, infinite
chi-squared (no letters) sorts last, and ties prefer shallower recipes
(the spec's tie-break). -/
def rankKey (cfg : MagicConfig) (n : MagicNode) : Nat :=
  (if matchesTarget cfg n.buf then 0
   else if hasLetters n.buf then 1 else 2) * 1000000 + n.recipe.length

/-- Insert a node into a list sorted by the key, after equal keys
(stable). -/
def insertByKey (k : MagicNode → Nat) (n : MagicNode) :
    List MagicNode → List MagicNode
  | [] => [n]
  | m :: ms => if k n < k m then n :: m :: ms else m :: insertByKey k n ms

/-- Stable insertion sort of nodes by a key. -/
def sortByKey (k : MagicNode → Nat) (l : List MagicNode) : List MagicNode :=
  l.foldr (insertByKey k) []

/-- A candidate of the analysis report: the terminal node, its detected
file type, and its interesting verdict. -/
structure MagicCandidate where
  node : MagicNode
  detectedType : Option FileSig
  interesting : Bool
deriving DecidableEq

/-- Build the candidate record of a node. -/
def mkCandidate (cfg : MagicConfig) (n : MagicNode) : MagicCandidate :=
  ⟨n, magicFileTypeModel n.buf, isInterestingNode cfg n⟩

/-- Modelled from the spec: collect the result set: all interesting
nodes ranked ascending, or the single best-ranked node when no
interesting node exists (step 4 of the expansion algorithm). -/
def collectCandidates (cfg : MagicConfig) (nodes : List MagicNode) :
    List MagicCandidate :=
  let ints := nodes.filter (isInterestingNode cfg)
  let picked :=
    if ints.isEmpty then (sortByKey (rankKey cfg) nodes).take 1
    else sortByKey (rankKey cfg) ints
  picked.map (mkCandidate cfg)

/-- The canonical no-result preview of the result formatter. -/
def nothingMessage : String :=
  "Nothing of interest could be detected about the input data.\nHave you tried modifying the operation arguments?"

/-- The analysis report: ranked candidates and the textual preview. -/
structure AnalysisReport where
  candidates : List MagicCandidate
  preview : String

/-- Render a byte buffer for the preview (lenient decode, truncated). -/
def previewOfBuf (buf : List Nat) : String :=
  String.mk (((utf8DecodeLenient buf).take 100).map Char.ofNat)

/-- Modelled from the spec: the analyze call over an explicit registry:
empty input yields the canonical no-result report (section 7); otherwise
the bounded search runs and the collected candidates are reported, with
the canonical preview when no candidate was found. -/
def magicAnalyzeWith (reg : List MagicOp) (cfg : MagicConfig)
    (input : List Nat) : AnalysisReport :=
  if input.isEmpty then ⟨[], nothingMessage⟩
  else
    let cands := collectCandidates cfg (magicNodes reg cfg input)
    ⟨cands,
     match cands.head? with
     | none => nothingMessage
     | some c => previewOfBuf c.node.buf⟩

/-- Modelled from the spec: the operation registry consumed by the Magic
engine: the reversible decoders with their pattern hints, the render
step for detected image types, and the encoding brute-force (whose
codepage set widens with extensive language support). -/
def magicRegistry (cfg : MagicConfig) : List MagicOp :=
  [⟨"From Base64", false, ["A-Za-z0-9+/=", "true"],
    [⟨["A-Za-z0-9+/=", "true"], fun b => (parseBase64 b).isSome && b.length ≥ 8⟩],
    fun _ b => parseBase64 b⟩,
   ⟨"From Hex", false, ["Space"],
    [⟨["Space"], fun b => (parseHexSpaced b).isSome⟩,
     ⟨["None"], fun b => (parseHexNone b).isSome && !b.isEmpty⟩],
    fun args b =>
      if args == ["Space"] then parseHexSpaced b
      else if args == ["None"] then (if b.isEmpty then none else parseHexNone b)
      else none⟩,
   ⟨"From Base32", false, ["A-Z2-7=", "false"],
    [⟨["A-Z2-7=", "false"], fun b => (parseBase32 b).isSome && b.length ≥ 8⟩],
    fun _ b => parseBase32 b⟩,
   ⟨"From Octal", false, ["Space"],
    [⟨["Space"], fun b => (parseOctalSpaced b).isSome⟩],
    fun _ b => parseOctalSpaced b⟩,
   ⟨"Render Image", false, ["Raw"],
    [⟨["Raw"], fun b => fileSigIsImage (magicFileTypeModel b)⟩],
    fun _ b => if fileSigIsImage (magicFileTypeModel b) then some b else none⟩,
   ⟨"Text Encoding Brute Force", false, [], [],
    fun _ b =>
      textEncodingBruteForce
        (if cfg.extensiveLang then fullCodePages else baseCodePages) b⟩]

/-- Modelled from the spec: the analyze call surface of the Magic
operation. -/
def magicAnalyze (cfg : MagicConfig) (input : List Nat) : AnalysisReport :=
  magicAnalyzeWith (magicRegistry cfg) cfg input

set_option maxHeartbeats 16000000
set_option maxRecDepth 100000

/-- The Magic test configuration with depth 3 and both flags off. -/
def cfg3ff : MagicConfig := ⟨3, false, false, none⟩

/-- The Magic test configuration with depth 3 and intensive mode. -/
def cfg3tf : MagicConfig := ⟨3, true, false, none⟩

/-- The Magic test configuration with depth 3, intensive mode and
extensive language support. -/
def cfg3tt : MagicConfig := ⟨3, true, true, none⟩

/-- The mojibake Cyrillic hex input of the Magic mojibake test. -/
def mojibakeHexInput : List Nat :=
  strBytes "d091d18bd100d182d180d0b0d10020d0bad0bed180d0b8d187d0bdd0b5d0b2d0b0d10020d0bbd0b8d100d0b020d0bfd180d18bd0b3d0b0d0b5d18220d187d0b5d180d0b5d0b720d0bbd0b5d0bdd0b8d0b2d183d18e20d100d0bed0b1d0b0d0bad1832e"

/-- The mojibake Belarusian input of the Text Encoding Brute Force test. -/
def mojibakeBelarusianInput : List Nat :=
  strBytes "Р‘СѓР»РєС– РїСЂР°Р· Р»СЏРЅС–РІР° СЃР°Р±Р°РєСѓ."
/-- The JPEG header input of the Magic jpeg test (bytes of the test
string, which begins FF D8 FF E0). -/
def jpegTestBytes : List Nat :=
  [255, 216, 255, 224, 0, 16, 74, 70, 73, 70, 0, 1, 1, 1, 0, 72, 0, 72, 0, 0,
   255, 219, 0, 67, 0, 3, 2, 2, 3, 2, 2, 3, 3, 3, 3, 4, 3, 3, 4, 5,
   8, 5, 5, 4, 4, 5, 10, 7, 7, 6, 8, 12, 10, 12, 12, 11, 10, 11, 11, 13,
   14, 18, 16, 13, 14, 17, 14, 11, 11, 16, 22, 16, 17, 19, 20, 21, 21, 21, 12, 15,
   23, 24, 22, 20, 24, 18, 20, 21, 20, 255, 219, 0, 67, 1, 3, 4, 4, 5, 4, 5,
   9, 5, 5, 9, 20, 13, 11, 13, 20, 20, 20, 20, 20, 20, 20, 20, 20, 20, 20, 20,
   20, 20, 20, 20, 20, 20, 20, 20, 20, 20, 20, 20, 20, 20, 20, 20, 20, 20, 20, 20,
   20, 20, 20, 20, 20, 20, 20, 20, 20, 20, 20, 20, 20, 20, 20, 20, 20, 20, 255, 194,
   0, 17, 8, 0, 50, 0, 50, 3, 1, 17, 0, 2, 17, 1, 3, 17, 1, 255, 196, 0,
   28, 0, 0, 2, 2, 3, 1, 1, 0, 0, 0, 0, 0, 0, 0, 0, 0, 0, 6, 7,
   4, 5, 0, 2, 3, 1, 8, 255, 196, 0, 26, 1, 0, 3, 1, 1, 1, 1, 0, 0,
   0, 0, 0, 0, 0, 0, 0, 0, 4, 5, 6, 3, 2, 1, 7, 255, 218, 0, 12, 3,
   1, 0, 2, 16, 3, 16, 0, 0, 1, 231, 20, 212, 110, 146, 110, 224, 103, 211, 1, 46,
   226, 97, 148, 204, 184, 162, 106, 158, 160, 138, 113, 250, 222, 220, 82, 211, 213, 137, 22, 225,
   189, 87, 107, 76, 201, 201, 2, 173, 205, 63, 61, 227, 14, 252, 205, 97, 149, 233, 8, 168,
   116, 5, 78, 195, 20, 7, 93, 98, 197, 34, 87, 184, 15, 189, 73, 217, 80, 210, 107, 70,
   60, 227, 143, 161, 213, 131, 45, 39, 165, 189, 243, 36, 153, 130, 17, 245, 213, 243, 240, 5,
   143, 52, 188, 22, 165, 131, 0, 116, 170, 134, 102, 180, 142, 242, 137, 19, 136, 217, 226, 22,
   86, 229, 179, 74, 140, 201, 201, 97, 161, 149, 165, 29, 126, 184, 168, 103, 101, 243, 189, 164,
   167, 255, 196, 0, 33, 16, 0, 2, 3, 0, 2, 2, 2, 3, 0, 0, 0, 0, 0, 0,
   0, 0, 3, 4, 1, 2, 5, 0, 6, 17, 18, 19, 20, 22, 33, 36, 255, 218, 0, 8,
   1, 1, 0, 1, 5, 2, 217, 165, 73, 90, 29, 106, 57, 248, 250, 213, 3, 152, 230, 97,
   68, 22, 162, 201, 130, 180, 188, 151, 174, 158, 228, 99, 236, 51, 214, 36, 75, 41, 164, 152,
   173, 92, 74, 104, 174, 78, 94, 65, 60, 63, 200, 32, 12, 75, 200, 212, 66, 52, 184, 124,
   47, 58, 209, 234, 58, 54, 25, 244, 77, 66, 217, 65, 233, 2, 197, 141, 188, 209, 69, 235,
   245, 18, 204, 179, 155, 192, 139, 23, 35, 153, 142, 173, 154, 103, 183, 70, 101, 53, 214, 165,
   156, 129, 248, 139, 94, 159, 46, 131, 76, 53, 205, 179, 131, 69, 28, 225, 217, 133, 53, 243,
   28, 210, 115, 173, 58, 26, 189, 103, 135, 237, 137, 150, 150, 121, 182, 17, 69, 156, 158, 179,
   3, 157, 12, 119, 6, 242, 184, 155, 159, 11, 90, 66, 170, 75, 88, 164, 246, 20, 69, 244,
   59, 29, 42, 76, 108, 229, 130, 186, 125, 143, 249, 145, 207, 165, 70, 166, 191, 235, 18, 13,
   127, 31, 255, 196, 0, 47, 17, 0, 1, 4, 1, 2, 3, 6, 4, 7, 0, 0, 0, 0,
   0, 0, 0, 1, 0, 2, 3, 4, 17, 18, 49, 5, 19, 33, 20, 34, 65, 81, 161, 240,
   50, 66, 113, 129, 35, 36, 82, 83, 97, 145, 241, 255, 218, 0, 8, 1, 3, 1, 1, 63,
   1, 191, 14, 152, 195, 192, 251, 161, 25, 113, 202, 168, 91, 93, 237, 115, 211, 56, 227, 152,
   247, 53, 173, 26, 115, 252, 167, 207, 218, 123, 206, 241, 77, 176, 33, 105, 13, 11, 75, 207,
   206, 84, 95, 152, 172, 27, 40, 223, 31, 214, 86, 152, 35, 154, 55, 57, 189, 78, 222, 253,
   23, 22, 174, 215, 90, 223, 161, 234, 157, 12, 109, 110, 133, 43, 102, 45, 13, 140, 116, 92,
   42, 6, 19, 135, 12, 225, 61, 160, 56, 133, 116, 77, 90, 0, 232, 198, 223, 79, 162, 177,
   98, 107, 4, 3, 215, 201, 67, 52, 146, 63, 75, 221, 156, 166, 112, 250, 173, 249, 123, 222,
   106, 213, 200, 224, 126, 131, 184, 80, 219, 159, 153, 173, 135, 1, 58, 206, 183, 23, 19, 186,
   58, 45, 240, 241, 141, 180, 250, 255, 0, 170, 10, 214, 42, 30, 126, 148, 106, 86, 188, 230,
   207, 25, 235, 239, 213, 93, 18, 75, 22, 35, 42, 213, 82, 35, 46, 39, 56, 92, 62, 40,
   165, 146, 49, 39, 195, 226, 177, 24, 232, 26, 20, 28, 74, 10, 240, 183, 78, 224, 108, 172,
   241, 55, 216, 238, 227, 186, 156, 73, 135, 155, 14, 227, 101, 218, 108, 178, 66, 242, 237, 247,
   84, 164, 128, 196, 217, 44, 99, 39, 207, 101, 196, 237, 64, 247, 53, 145, 187, 168, 89, 114,
   191, 21, 83, 142, 70, 254, 254, 203, 70, 50, 21, 44, 180, 56, 101, 92, 143, 151, 40, 120,
   241, 234, 164, 163, 218, 134, 172, 225, 75, 195, 161, 144, 8, 136, 193, 243, 67, 129, 210, 253,
   195, 232, 157, 241, 57, 64, 1, 153, 128, 249, 133, 96, 114, 236, 56, 51, 167, 84, 211, 248,
   121, 85, 9, 112, 118, 165, 111, 103, 149, 206, 147, 245, 21, 255, 196, 0, 47, 17, 0, 1,
   3, 2, 3, 6, 5, 3, 5, 0, 0, 0, 0, 0, 0, 0, 1, 0, 2, 3, 4, 33,
   17, 19, 49, 5, 18, 34, 65, 81, 97, 113, 161, 177, 193, 240, 35, 50, 209, 51, 129, 145,
   225, 241, 255, 218, 0, 8, 1, 2, 1, 1, 63, 1, 217, 4, 239, 144, 44, 61, 78, 30,
   202, 178, 103, 194, 192, 25, 112, 164, 149, 198, 30, 35, 116, 217, 239, 139, 238, 112, 190, 154,
   118, 252, 42, 154, 130, 233, 78, 4, 128, 179, 9, 179, 142, 62, 62, 72, 109, 157, 219, 100,
   183, 248, 81, 194, 216, 43, 254, 150, 131, 31, 69, 11, 248, 174, 171, 51, 98, 149, 237, 109,
   239, 235, 167, 157, 148, 89, 210, 203, 139, 236, 66, 115, 35, 103, 47, 156, 150, 201, 165, 138,
   121, 28, 101, 24, 240, 217, 9, 72, 24, 15, 69, 67, 77, 155, 43, 164, 113, 215, 69, 46,
   252, 46, 49, 204, 108, 84, 173, 138, 48, 102, 45, 209, 6, 196, 0, 153, 250, 21, 86, 89,
   57, 115, 224, 28, 62, 234, 22, 207, 1, 206, 136, 27, 233, 209, 63, 103, 74, 247, 23, 17,
   170, 134, 77, 227, 188, 58, 169, 170, 41, 106, 28, 35, 121, 253, 213, 125, 41, 124, 110, 17,
   28, 7, 68, 250, 130, 253, 209, 38, 22, 235, 162, 100, 156, 67, 40, 110, 226, 161, 156, 196,
   233, 27, 37, 192, 191, 109, 124, 181, 66, 104, 176, 251, 189, 17, 149, 173, 167, 200, 230, 169,
   169, 68, 216, 28, 120, 143, 146, 167, 126, 85, 102, 76, 218, 29, 122, 118, 249, 226, 164, 163,
   138, 70, 110, 57, 191, 49, 84, 241, 6, 205, 35, 89, 137, 35, 159, 143, 247, 142, 42, 189,
   141, 143, 141, 214, 210, 200, 228, 99, 169, 85, 85, 112, 200, 4, 173, 7, 186, 166, 170, 25,
   141, 123, 108, 182, 163, 155, 35, 152, 224, 223, 158, 250, 170, 8, 193, 167, 17, 189, 69, 60,
   155, 41, 251, 174, 24, 163, 43, 170, 95, 190, 227, 169, 211, 183, 250, 142, 205, 24, 217, 59,
   144, 239, 249, 84, 196, 135, 56, 142, 64, 169, 30, 247, 129, 188, 113, 183, 178, 217, 210, 188,
   216, 185, 72, 247, 26, 155, 158, 190, 170, 143, 245, 35, 241, 247, 71, 85, 255, 196, 0, 47,
   16, 0, 2, 1, 3, 2, 3, 7, 2, 7, 1, 0, 0, 0, 0, 0, 0, 1, 2, 3,
   0, 4, 17, 18, 33, 19, 34, 49, 35, 50, 65, 81, 97, 113, 145, 51, 240, 5, 21, 66,
   82, 114, 129, 177, 161, 255, 218, 0, 8, 1, 1, 0, 6, 63, 2, 77, 113, 242, 200, 116,
   151, 35, 151, 208, 31, 154, 75, 98, 14, 149, 80, 76, 99, 101, 210, 105, 165, 224, 23, 148,
   18, 227, 155, 83, 31, 33, 75, 36, 122, 86, 237, 84, 29, 18, 244, 255, 0, 149, 28, 87,
   60, 39, 152, 19, 146, 23, 108, 230, 153, 99, 10, 144, 176, 234, 163, 7, 57, 222, 157, 191,
   54, 187, 25, 57, 198, 5, 66, 103, 113, 60, 147, 145, 172, 40, 219, 58, 170, 7, 225, 44,
   76, 217, 143, 95, 78, 163, 27, 138, 51, 99, 232, 231, 88, 244, 243, 248, 168, 115, 32, 58,
   250, 17, 184, 172, 179, 169, 69, 201, 94, 125, 171, 7, 148, 224, 176, 34, 151, 85, 194, 131,
   141, 198, 161, 86, 182, 130, 236, 219, 136, 112, 87, 76, 127, 83, 2, 184, 215, 64, 246, 3,
   102, 61, 214, 245, 172, 34, 149, 78, 184, 94, 149, 169, 83, 151, 87, 211, 69, 245, 166, 120,
   173, 156, 197, 251, 84, 233, 254, 253, 41, 160, 150, 233, 77, 196, 107, 211, 196, 123, 208, 79,
   219, 182, 244, 98, 144, 136, 229, 131, 29, 91, 28, 195, 214, 131, 126, 34, 220, 24, 80, 3,
   17, 85, 195, 177, 243, 127, 177, 83, 118, 65, 179, 230, 221, 60, 50, 42, 73, 166, 183, 107,
   206, 26, 225, 68, 96, 100, 147, 239, 93, 148, 38, 210, 114, 70, 28, 145, 129, 191, 216, 165,
   98, 7, 30, 224, 224, 232, 24, 215, 129, 154, 232, 195, 211, 2, 150, 110, 73, 132, 142, 24,
   55, 159, 247, 73, 202, 202, 154, 135, 103, 224, 125, 234, 222, 228, 141, 6, 22, 213, 134, 61,
   223, 3, 81, 73, 18, 52, 144, 231, 2, 66, 167, 7, 207, 122, 113, 21, 187, 92, 90, 160,
   5, 148, 12, 140, 239, 185, 251, 240, 162, 239, 108, 210, 40, 229, 23, 25, 194, 196, 216, 233,
   131, 215, 59, 110, 40, 246, 172, 61, 168, 139, 187, 110, 204, 110, 34, 234, 153, 243, 167, 154,
   43, 69, 141, 138, 229, 74, 174, 156, 124, 85, 214, 38, 38, 68, 139, 5, 65, 202, 130, 79,
   251, 176, 169, 151, 170, 137, 12, 64, 141, 180, 143, 188, 212, 177, 194, 153, 253, 50, 6, 63,
   24, 171, 187, 155, 125, 28, 105, 78, 167, 140, 247, 78, 251, 209, 196, 123, 123, 26, 128, 29,
   199, 27, 161, 254, 85, 116, 172, 3, 41, 42, 48, 127, 152, 166, 104, 162, 72, 216, 185, 201,
   69, 199, 235, 169, 56, 93, 150, 72, 238, 109, 225, 80, 186, 168, 87, 109, 26, 152, 13, 207,
   102, 181, 112, 6, 195, 130, 223, 229, 119, 219, 230, 191, 255, 196, 0, 34, 16, 1, 0, 2,
   2, 2, 3, 0, 3, 1, 1, 0, 0, 0, 0, 0, 0, 1, 17, 33, 0, 49, 65, 81,
   97, 113, 129, 145, 161, 177, 193, 240, 255, 218, 0, 8, 1, 1, 0, 1, 63, 33, 16, 50,
   207, 255, 0, 85, 109, 7, 215, 57, 85, 76, 79, 16, 83, 57, 125, 23, 37, 33, 180, 152,
   241, 14, 183, 222, 62, 48, 214, 43, 205, 235, 31, 117, 145, 29, 53, 86, 78, 206, 156, 138,
   56, 181, 170, 41, 169, 162, 240, 25, 55, 224, 239, 90, 196, 9, 108, 31, 64, 249, 19, 247,
   38, 142, 82, 240, 80, 81, 185, 139, 192, 176, 35, 233, 47, 218, 220, 111, 29, 147, 8, 64,
   165, 220, 245, 148, 178, 32, 75, 72, 238, 59, 193, 58, 89, 26, 19, 92, 250, 227, 28, 213,
   153, 10, 28, 154, 194, 176, 9, 36, 221, 119, 238, 48, 44, 235, 153, 19, 80, 14, 137, 220,
   52, 103, 31, 148, 184, 246, 78, 178, 94, 13, 140, 33, 240, 15, 181, 142, 108, 162, 1, 134,
   158, 216, 36, 196, 147, 40, 208, 163, 154, 127, 120, 77, 40, 198, 4, 214, 33, 209, 40, 148,
   28, 207, 209, 51, 205, 99, 139, 56, 148, 234, 206, 10, 136, 44, 222, 174, 18, 25, 140, 60,
   56, 23, 97, 235, 35, 121, 13, 81, 92, 64, 250, 184, 114, 1, 227, 3, 11, 238, 120, 121,
   60, 96, 91, 184, 228, 56, 183, 189, 24, 32, 87, 60, 60, 76, 168, 98, 213, 235, 151, 0,
   99, 192, 131, 209, 221, 168, 91, 215, 220, 116, 140, 200, 79, 10, 155, 137, 63, 231, 43, 188,
   22, 104, 149, 35, 134, 206, 103, 34, 73, 53, 173, 193, 247, 95, 227, 42, 107, 228, 33, 38,
   68, 193, 161, 94, 156, 166, 18, 117, 8, 50, 173, 251, 226, 84, 2, 221, 58, 200, 12, 124,
   158, 37, 229, 27, 62, 98, 184, 99, 106, 38, 109, 4, 126, 38, 116, 97, 174, 33, 38, 251,
   162, 59, 118, 153, 235, 10, 184, 45, 34, 173, 46, 119, 253, 205, 70, 140, 169, 89, 71, 113,
   54, 115, 24, 155, 57, 215, 86, 8, 99, 145, 176, 74, 227, 23, 8, 114, 38, 152, 193, 107,
   224, 137, 136, 18, 152, 153, 93, 135, 46, 220, 100, 247, 173, 5, 111, 111, 54, 191, 156, 75,
   14, 12, 246, 196, 143, 232, 207, 255, 218, 0, 12, 3, 1, 0, 2, 0, 3, 0, 0, 0,
   16, 137, 74, 93, 227, 180, 243, 116, 230, 80, 238, 17, 39, 236, 101, 143, 252, 33, 38, 95,
   255, 196, 0, 35, 17, 1, 0, 2, 2, 2, 2, 2, 3, 1, 1, 0, 0, 0, 0, 0,
   0, 1, 17, 33, 0, 49, 65, 81, 97, 113, 129, 145, 161, 177, 193, 209, 240, 255, 218, 0,
   8, 1, 3, 1, 1, 63, 16, 105, 166, 56, 112, 77, 79, 133, 98, 120, 214, 64, 133, 191,
   55, 255, 0, 127, 152, 116, 8, 109, 120, 157, 164, 212, 156, 113, 63, 120, 185, 14, 142, 219,
   218, 205, 201, 184, 15, 156, 89, 71, 34, 206, 43, 91, 158, 185, 230, 252, 97, 102, 157, 145,
   17, 58, 103, 198, 180, 120, 243, 139, 37, 251, 28, 4, 184, 216, 149, 96, 191, 71, 205, 107,
   19, 160, 116, 68, 26, 10, 170, 70, 75, 50, 72, 105, 199, 17, 30, 167, 123, 249, 145, 193,
   67, 77, 249, 158, 254, 113, 241, 75, 112, 127, 122, 196, 0, 160, 178, 119, 50, 254, 15, 143,
   56, 12, 38, 23, 159, 57, 17, 194, 51, 116, 34, 18, 109, 153, 209, 173, 174, 45, 146, 40,
   7, 111, 7, 107, 242, 215, 70, 24, 86, 137, 109, 158, 165, 184, 253, 122, 193, 121, 2, 100,
   177, 49, 200, 193, 29, 70, 254, 99, 8, 90, 87, 5, 93, 132, 206, 239, 103, 103, 163, 202,
   13, 212, 36, 204, 93, 250, 233, 134, 156, 43, 145, 46, 187, 188, 20, 53, 93, 154, 1, 42,
   189, 195, 159, 154, 156, 166, 16, 12, 139, 105, 183, 211, 6, 183, 186, 238, 0, 156, 216, 217,
   211, 20, 3, 239, 211, 56, 221, 66, 178, 147, 193, 193, 212, 238, 40, 252, 97, 238, 112, 158,
   207, 156, 174, 68, 164, 152, 184, 93, 156, 76, 78, 152, 231, 0, 211, 154, 222, 190, 176, 162,
   68, 4, 9, 105, 11, 54, 110, 230, 101, 131, 88, 38, 158, 100, 202, 223, 45, 87, 143, 185,
   111, 36, 108, 4, 162, 147, 132, 253, 248, 212, 96, 154, 140, 56, 67, 20, 73, 224, 199, 96,
   64, 2, 37, 11, 113, 234, 18, 100, 36, 230, 240, 164, 89, 97, 81, 197, 247, 246, 121, 25,
   194, 3, 88, 194, 129, 59, 1, 56, 228, 136, 61, 68, 111, 27, 152, 201, 146, 146, 122, 59,
   244, 209, 140, 138, 192, 43, 241, 238, 167, 143, 238, 24, 162, 13, 49, 118, 12, 71, 242, 105,
   54, 228, 14, 136, 13, 29, 147, 94, 167, 124, 196, 57, 4, 145, 127, 231, 89, 179, 227, 248,
   97, 41, 35, 33, 221, 243, 132, 26, 28, 10, 63, 24, 136, 109, 133, 60, 156, 86, 74, 233,
   163, 119, 214, 16, 54, 225, 253, 100, 191, 232, 231, 255, 196, 0, 36, 17, 1, 1, 0, 2,
   2, 2, 1, 4, 3, 1, 0, 0, 0, 0, 0, 0, 1, 17, 33, 49, 0, 65, 81, 97,
   113, 129, 145, 177, 193, 161, 209, 241, 225, 255, 218, 0, 8, 1, 2, 1, 1, 63, 16, 215,
   167, 87, 61, 132, 117, 65, 80, 174, 107, 231, 142, 67, 67, 229, 59, 255, 0, 159, 126, 104,
   188, 22, 72, 190, 230, 175, 103, 125, 120, 226, 137, 144, 160, 83, 22, 58, 128, 27, 89, 194,
   221, 6, 91, 33, 11, 162, 2, 161, 140, 239, 29, 111, 203, 152, 138, 11, 147, 140, 61, 156,
   181, 219, 13, 218, 194, 32, 224, 199, 3, 70, 141, 2, 220, 136, 239, 118, 191, 76, 87, 158,
   216, 60, 245, 68, 190, 167, 251, 192, 11, 72, 101, 240, 254, 25, 108, 76, 117, 193, 112, 224,
   34, 66, 110, 71, 83, 191, 29, 248, 64, 153, 177, 149, 115, 131, 207, 221, 193, 152, 14, 57,
   23, 204, 131, 166, 187, 154, 103, 238, 248, 224, 68, 0, 235, 253, 115, 10, 77, 169, 23, 43,
   105, 215, 223, 99, 33, 120, 136, 228, 23, 27, 46, 58, 166, 151, 179, 19, 190, 4, 70, 45,
   232, 241, 131, 103, 174, 241, 238, 163, 178, 11, 100, 207, 191, 174, 47, 199, 26, 179, 25, 96,
   225, 115, 130, 77, 29, 132, 207, 40, 137, 145, 3, 149, 20, 248, 131, 119, 247, 200, 153, 234,
   87, 51, 46, 116, 16, 248, 56, 98, 88, 233, 235, 82, 117, 138, 67, 227, 97, 199, 206, 162,
   64, 88, 172, 43, 226, 194, 152, 169, 154, 80, 187, 202, 176, 76, 86, 154, 141, 119, 147, 76,
   167, 16, 20, 108, 236, 246, 145, 212, 78, 243, 49, 198, 29, 194, 221, 194, 118, 164, 234, 119,
   174, 248, 183, 210, 4, 192, 160, 161, 229, 183, 91, 199, 124, 112, 127, 62, 96, 84, 239, 72,
   185, 205, 125, 230, 158, 245, 195, 70, 81, 43, 172, 28, 134, 114, 77, 253, 8, 113, 28, 237,
   0, 229, 98, 170, 231, 163, 218, 169, 58, 230, 99, 162, 201, 102, 107, 15, 233, 247, 203, 128,
   107, 131, 128, 152, 58, 177, 130, 54, 154, 103, 20, 164, 37, 19, 46, 88, 224, 208, 214, 47,
   86, 80, 162, 211, 238, 31, 215, 3, 113, 204, 102, 120, 26, 236, 204, 98, 245, 113, 201, 111,
   36, 117, 7, 102, 140, 126, 62, 183, 132, 136, 195, 124, 169, 2, 71, 2, 183, 228, 155, 120,
   2, 225, 17, 47, 74, 254, 157, 125, 57, 140, 123, 239, 96, 177, 189, 78, 241, 27, 163, 124,
   168, 169, 36, 20, 171, 55, 140, 70, 68, 66, 166, 107, 203, 212, 206, 60, 117, 43, 249, 107,
   239, 196, 10, 40, 30, 204, 58, 241, 197, 103, 70, 21, 89, 114, 151, 92, 150, 228, 178, 86,
   79, 28, 57, 86, 49, 151, 25, 159, 140, 113, 169, 175, 249, 195, 152, 32, 231, 255, 196, 0,
   31, 16, 1, 1, 1, 1, 1, 1, 0, 2, 3, 1, 0, 0, 0, 0, 0, 0, 1, 17,
   33, 0, 49, 65, 81, 97, 113, 129, 209, 145, 255, 218, 0, 8, 1, 1, 0, 1, 63, 16,
   202, 149, 248, 35, 161, 255, 0, 164, 81, 170, 58, 250, 186, 138, 7, 18, 9, 168, 66, 137,
   102, 11, 120, 152, 148, 187, 122, 129, 65, 243, 104, 84, 164, 63, 63, 153, 193, 172, 20, 159,
   229, 201, 162, 99, 212, 32, 27, 96, 3, 126, 120, 97, 197, 157, 201, 108, 206, 72, 4, 132,
   183, 95, 154, 125, 112, 143, 189, 63, 211, 103, 3, 121, 39, 51, 64, 50, 128, 129, 46, 51,
   203, 181, 164, 205, 67, 74, 146, 62, 16, 151, 225, 170, 243, 32, 131, 102, 11, 22, 154, 128,
   61, 236, 12, 145, 179, 68, 232, 91, 11, 141, 31, 21, 224, 7, 195, 81, 73, 40, 104, 55,
   132, 252, 253, 121, 112, 8, 147, 181, 60, 49, 75, 245, 76, 245, 231, 90, 74, 84, 138, 39,
   196, 126, 114, 21, 239, 67, 133, 112, 63, 37, 42, 129, 100, 119, 127, 165, 136, 211, 37, 210,
   138, 7, 129, 207, 232, 101, 166, 210, 22, 10, 142, 63, 95, 151, 132, 213, 129, 66, 144, 159,
   28, 172, 16, 60, 135, 122, 129, 232, 46, 88, 0, 151, 193, 187, 118, 240, 14, 249, 65, 16,
   128, 83, 36, 141, 248, 143, 54, 52, 141, 156, 33, 107, 110, 125, 222, 66, 47, 88, 88, 13,
   8, 136, 68, 107, 197, 56, 68, 40, 10, 86, 181, 29, 219, 42, 224, 113, 64, 230, 215, 64,
   141, 196, 160, 2, 226, 138, 160, 249, 27, 143, 150, 51, 65, 10, 38, 188, 42, 251, 142, 37,
   8, 240, 191, 179, 237, 202, 137, 143, 65, 168, 24, 218, 7, 216, 26, 136, 230, 96, 17, 47,
   211, 91, 159, 189, 230, 152, 96, 140, 197, 62, 24, 3, 99, 61, 135, 4, 80, 130, 138, 197,
   112, 83, 1, 41, 158, 29, 236, 211, 100, 104, 192, 128, 145, 95, 192, 224, 4, 171, 134, 24,
   132, 4, 146, 250, 26, 143, 164, 233, 187, 66, 166, 168, 254, 208, 26, 21, 33, 115, 110, 208,
   83, 60, 96, 0, 40, 134, 90, 243, 149, 251, 140, 130, 248, 51, 206, 126, 238, 97, 223, 145,
   132, 15, 69, 244, 190, 94, 151, 204, 139, 6, 202, 193, 52, 165, 101, 233, 22, 214, 5, 218,
   0, 196, 17, 73, 39, 12, 58, 170, 132, 138, 90, 17, 112, 129, 245, 132, 229, 76, 29, 13,
   134, 30, 18, 139, 130, 62, 28, 233, 231, 34, 3, 91, 14, 89, 8, 49, 78, 115, 137, 34,
   93, 45, 102, 223, 199, 1, 53, 34, 133, 4, 125, 19, 39, 227, 136, 139, 105, 114, 137, 98,
   126, 184, 207, 52, 223, 64, 0, 160, 40, 95, 5, 56, 73, 0, 75, 244, 165, 197, 213, 127,
   149, 122, 38, 82, 70, 40, 75, 105, 27, 245, 63, 121, 220, 4, 90, 4, 142, 126, 185, 173,
   117, 5, 95, 246, 239, 255, 217]

/-- Operation errors of the image operations: an OperationError with its
message (thrown by the operation itself), or an uncaught host (jimp)
error.  Strings are carried as character lists. -/
inductive RunError
  | opError (msg : List Char)
  | hostError (msg : List Char)
deriving DecidableEq

/-- The message of the invalid-file-type OperationError of the image
operations. -/
def invalidFileTypeMsg : List Char := "Invalid file type.".data

/-- Embedding of CoverImage.run: the detected type must be an image
(mime starting with image), otherwise OperationError Invalid file type
is thrown before any image processing; jimp reading, covering and
re-encoding are the host function, whose errors propagate uncaught. -/
def coverImageRun (magicFileType : List Nat → Option FileSig)
    (jimpCover : List Nat → Except (List Char) (List Nat))
    (input : List Nat) : Except RunError (List Nat) :=
  if fileSigIsImage (magicFileType input) then
    match jimpCover input with
    | Except.ok out => Except.ok out
    | Except.error e => Except.error (RunError.hostError e)
  else Except.error (RunError.opError invalidFileTypeMsg)

/-- Embedding of RotateImage.run: same guard as CoverImage.run, with the
jimp read-rotate-encode pipeline as the host function. -/
def rotateImageRun (magicFileType : List Nat → Option FileSig)
    (jimpRotate : List Nat → Except (List Char) (List Nat))
    (input : List Nat) : Except RunError (List Nat) :=
  if fileSigIsImage (magicFileType input) then
    match jimpRotate input with
    | Except.ok out => Except.ok out
    | Except.error e => Except.error (RunError.hostError e)
  else Except.error (RunError.opError invalidFileTypeMsg)

/-- Embedding of BlurImage.run: same guard; jimp read errors and blur
errors are caught and re-thrown as OperationErrors with wrapped
messages. -/
def blurImageRun {Img : Type} (magicFileType : List Nat → Option FileSig)
    (jimpRead : List Nat → Except (List Char) Img)
    (blurAndEncode : Img → Except (List Char) (List Nat))
    (input : List Nat) : Except RunError (List Nat) :=
  if fileSigIsImage (magicFileType input) then
    match jimpRead input with
    | Except.error e =>
        Except.error (RunError.opError
          ("Error loading image. (".data ++ e ++ ")".data))
    | Except.ok img =>
      match blurAndEncode img with
      | Except.error e =>
          Except.error (RunError.opError
            ("Error blurring image. (".data ++ e ++ ")".data))
      | Except.ok out => Except.ok out
  else Except.error (RunError.opError invalidFileTypeMsg)

/-- A detection of scanForFileTypes: an offset and the file details
reported there (character-list strings). -/
structure EmbeddedFile where
  offset : Nat
  extension : List Char
  mime : List Char
  description : List Char
deriving DecidableEq

/-- The common (false-positive prone) extensions list of
ScanForEmbeddedFiles.run. -/
def commonExtsList : List (List Char) :=
  ["ttf".data, "utf16le".data, "".data]

/-- Utils.hex of the source: lowercase hexadecimal padded to two
digits. -/
def utilsHex (n : Nat) : List Char :=
  let d := Nat.toDigits 16 n
  List.replicate (2 - d.length) '0' ++ d

/-- The fixed header line of the ScanForEmbeddedFiles.run output. -/
def scanHeader : List Char :=
  ("Scanning data for 'magic bytes' which may indicate embedded files. The following results may be false positives and should not be treat as reliable. Any suffiently long file is likely to contain these magic bytes coincidentally.\n").data

/-- One detailed per-detection block of the ScanForEmbeddedFiles.run
output. -/
def scanEntryText (t : EmbeddedFile) : List Char :=
  "\nOffset ".data ++ Nat.toDigits 10 t.offset ++ " (0x".data ++
    utilsHex t.offset ++ "):\n".data ++
  "  File extension: ".data ++ t.extension ++ "\n".data ++
  "  MIME type:      ".data ++ t.mime ++ "\n".data ++
  (if t.description.length > 0 then
    "  Description:    ".data ++ t.description ++ "\n".data
   else [])

/-- The no-findings line appended by ScanForEmbeddedFiles.run when no
detection was reported in detail. -/
def noFilesLine : List Char := "\nNo embedded files were found.".data

/-- The trailing false-positive note of ScanForEmbeddedFiles.run for n
skipped common detections. -/
def scanCommonNote (n : Nat) : List Char :=
  "\n\n".data ++ Nat.toDigits 10 n ++
  (if n = 1 then
    " file type was detected that has a common byte sequence. This is likely to be a false positive."
   else
    " file types were detected that have common byte sequences. These are likely to be false positives.").data ++
  " Run this operation with the 'Ignore common byte sequences' option unchecked to see details.".data

/-- Whether ScanForEmbeddedFiles.run skips a detection from the detailed
listing (only counting it in the trailing note). -/
def scanSkipsDetection (ignoreCommon : Bool) (t : EmbeddedFile) : Bool :=
  ignoreCommon && commonExtsList.contains t.extension

/-- The detections ScanForEmbeddedFiles.run reports in detail. -/
def scanReported (ignoreCommon : Bool) (types : List EmbeddedFile) :
    List EmbeddedFile :=
  types.filter (fun t => !scanSkipsDetection ignoreCommon t)

/-- Embedding of ScanForEmbeddedFiles.run, with the scanForFileTypes
detection list as a parameter (lib/FileType is missing from the
available sources): the header, one detailed block per non-skipped
detection, the no-findings line when every detection was skipped or
absent, and the false-positive note when common detections were
skipped. -/
def scanForEmbeddedFilesRun (ignoreCommon : Bool)
    (types : List EmbeddedFile) : List Char :=
  let reported := scanReported ignoreCommon types
  let numCommonFound := (types.filter (scanSkipsDetection ignoreCommon)).length
  scanHeader ++ reported.flatMap scanEntryText ++
    (if reported.length = 0 then noFilesLine else []) ++
    (if numCommonFound > 0 then scanCommonNote numCommonFound else [])

/-- C1: running the Magic analysis on the empty input with depth 3,
intensive and extensive language support off, returns a report with zero
candidates whose preview is exactly the canonical message (the string
Nothing of interest could be detected about the input data, a newline,
and Have you tried modifying the operation arguments?).  The analyze
call is a total function, so it never raises an error. -/
theorem magic_empty_input_canonical_report :
    (magicAnalyze cfg3ff []).candidates = [] ∧
    (magicAnalyze cfg3ff []).preview =
      "Nothing of interest could be detected about the input data.\nHave you tried modifying the operation arguments?" :=
  ⟨rfl, rfl⟩

/-- C2: on the mojibake Cyrillic hex input with depth 3, intensive mode
and extensive language support, the candidate set includes a Text
Encoding Brute Force node whose buffer contains the readable Cyrillic
phrase. -/
theorem magic_mojibake_bruteforce_candidate :
    ∃ c ∈ (magicAnalyze cfg3tt mojibakeHexInput).candidates,
      lastOpIs c.node "Text Encoding Brute Force" = true ∧
      occursIn
        (strBytes "Быртрар коричневар лира прыгает через ленивую робаку.")
        c.node.buf = true := by
  decide

/-- C3: on the input 41 42 43 44 45 with depth 3 and both flags off, the
top-ranked candidate has recipe exactly From Hex with delimiter Space,
terminal buffer ABCDE, and interesting verdict true. -/
theorem magic_hex_top_candidate :
    (magicAnalyze cfg3ff (strBytes "41 42 43 44 45")).candidates.head?.map
      (fun c => (c.node.recipe, c.node.buf, c.interesting)) =
    some ([⟨"From Hex", ["Space"]⟩], strBytes "ABCDE", true) := by
  decide

/-- C4: on the triple-Base64 encoding of the string test string, with
depth 3 and intensive mode, some candidate has recipe exactly three
consecutive From Base64 applications and terminal buffer test string. -/
theorem magic_triple_base64_candidate :
    ∃ c ∈ (magicAnalyze cfg3tf
            (strBytes "WkVkV2VtUkRRbnBrU0Vwd1ltMWpQUT09")).candidates,
      c.node.recipe = List.replicate 3 ⟨"From Base64", ["A-Za-z0-9+/=", "true"]⟩ ∧
      c.node.buf = strBytes "test string" := by
  decide

/-- C5: on the Base32-of-Octal-of-Hex encoding of test string, with
depth 3 and intensive mode, a candidate has recipe exactly the
three-step chain From Base32, From Octal with delimiter Space, then
From Hex with delimiter Space. -/
theorem magic_base32_octal_hex_candidate :
    ∃ c ∈ (magicAnalyze cfg3tf
            (strBytes "GY3SANRUEA2DAIBWGYQDMNJAGQYCANRXEA3DGIBUGAQDMNZAGY2CANBQEA3DEIBWGAQDIMBAGY3SANRTEA2DAIBWG4QDMNBAGQYCANRXEA3DEIBUGAQDMNRAG4YSANBQEA3DMIBRGQ2SANBQEA3DMIBWG4======")).candidates,
      c.node.recipe =
        [⟨"From Base32", ["A-Z2-7=", "false"]⟩, ⟨"From Octal", ["Space"]⟩,
         ⟨"From Hex", ["Space"]⟩] := by
  decide

/-- C6: on the JPEG test input (leading bytes FF D8 FF E0) with depth 3,
the top candidate's detected file type has mime image/jpeg, its recipe
ends in a Render Image step with format Raw, and its interesting
verdict is true. -/
theorem magic_jpeg_top_candidate :
    (magicAnalyze cfg3ff jpegTestBytes).candidates.head?.map
      (fun c => (c.detectedType.map (fun t => t.mime), c.node.recipe.getLast?,
                 c.interesting)) =
    some (some "image/jpeg", some ⟨"Render Image", ["Raw"]⟩, true) := by
  decide

/-- C8: on the mojibake Belarusian input, the Text Encoding Brute Force
report contains a Windows-1251 entry whose decoded string is the
readable text. -/
theorem bruteforce_windows1251_readable :
    occursIn
      (strBytes "Windows-1251 Cyrillic (1251): Булкі праз ляніва сабаку.")
      (textEncodingBruteForceReport fullCodePages mojibakeBelarusianInput) =
    true := by
  decide

/-- A successful child expansion appends exactly one step to the recipe
and one fresh fingerprint to the path. -/
theorem expandChild_spec {op : MagicOp} {args : List String} {n m : MagicNode}
    (h : expandChild op args n = some m) :
    m.recipe = n.recipe ++ [⟨op.name, args⟩] ∧
    m.fprints = n.fprints ++ [(m.recipe, m.buf)] ∧
    (m.recipe, m.buf) ∉ n.fprints := by
  unfold expandChild at h
  cases hinv : op.invoke args n.buf with
  | none => rw [hinv] at h; exact absurd h (by simp)
  | some out =>
    rw [hinv] at h
    simp only at h
    by_cases hc : n.fprints.contains (n.recipe ++ [⟨op.name, args⟩], out)
    · rw [if_pos hc] at h; exact absurd h (by simp)
    · rw [if_neg hc] at h
      obtain rfl := Option.some.inj h
      refine ⟨rfl, rfl, ?_⟩
      intro hmem
      exact hc (List.elem_eq_true_of_mem hmem)

/-- Every node produced by expanding a node is a successful child
expansion of it. -/
theorem mem_expandNode {reg : List MagicOp} {intensive : Bool}
    {n m : MagicNode} (h : m ∈ expandNode reg intensive n) :
    ∃ op args, expandChild op args n = some m := by
  unfold expandNode at h
  rw [List.mem_flatMap] at h
  obtain ⟨op, _, hm⟩ := h
  dsimp only at hm
  split at hm
  · rw [List.mem_filterMap] at hm
    obtain ⟨args, _, hc⟩ := hm
    exact ⟨op, args, hc⟩
  · exact absurd hm (by simp)

/-- Invariant of the levelled expansion: when every frontier node has a
duplicate-free fingerprint path and enough remaining budget, every node
below it has a duplicate-free fingerprint path and a recipe within the
depth bound. -/
theorem expandLevels_inv (reg : List MagicOp) (intensive : Bool) (D : Nat) :
    ∀ (d : Nat) (F : List MagicNode),
      (∀ f ∈ F, f.fprints.Nodup ∧ f.recipe.length + d ≤ D) →
      ∀ m ∈ expandLevels reg intensive d F,
        m.fprints.Nodup ∧ m.recipe.length ≤ D := by
  intro d
  induction d with
  | zero => intro F _ m hm; exact absurd hm (by simp [expandLevels])
  | succ d ih =>
    intro F hF m hm
    have hnext : ∀ g ∈ F.flatMap (expandNode reg intensive),
        g.fprints.Nodup ∧ g.recipe.length + d ≤ D := by
      intro g hg
      rw [List.mem_flatMap] at hg
      obtain ⟨f, hf, hgf⟩ := hg
      obtain ⟨hnd, hlen⟩ := hF f hf
      obtain ⟨op, args, hchild⟩ := mem_expandNode hgf
      obtain ⟨hrcp, hfp, hfresh⟩ := expandChild_spec hchild
      refine ⟨?_, ?_⟩
      · rw [hfp]
        rw [List.nodup_append]
        exact ⟨hnd, List.nodup_singleton _, by
          rw [List.disjoint_singleton]; exact hfresh⟩
      · rw [hrcp, List.length_append, List.length_singleton]
        omega
    rw [show expandLevels reg intensive (d + 1) F =
          F.flatMap (expandNode reg intensive) ++
            expandLevels reg intensive d (F.flatMap (expandNode reg intensive))
        from rfl, List.mem_append] at hm
    cases hm with
    | inl h => obtain ⟨h1, h2⟩ := hnext m h; exact ⟨h1, by omega⟩
    | inr h => exact ih _ hnext m h

/-- Every search node has a duplicate-free fingerprint path and a recipe
no longer than the configured depth. -/
theorem magicNodes_inv (reg : List MagicOp) (cfg : MagicConfig)
    (input : List Nat) :
    ∀ m ∈ magicNodes reg cfg input,
      m.fprints.Nodup ∧ m.recipe.length ≤ cfg.depth := by
  intro m hm
  unfold magicNodes at hm
  rw [List.mem_cons] at hm
  cases hm with
  | inl h =>
    subst h
    exact ⟨List.nodup_singleton _, Nat.zero_le _⟩
  | inr h =>
    refine expandLevels_inv reg cfg.intensive cfg.depth cfg.depth _ ?_ m h
    intro f hf
    rw [List.mem_singleton] at hf
    subst hf
    exact ⟨List.nodup_singleton _, by simp⟩

/-- Membership through the stable insertion step. -/
theorem mem_insertByKey {k : MagicNode → Nat} {n x : MagicNode} :
    ∀ {l : List MagicNode}, x ∈ insertByKey k n l → x = n ∨ x ∈ l := by
  intro l
  induction l with
  | nil => intro h; rw [insertByKey] at h; simpa using h
  | cons m ms ih =>
    intro h
    rw [insertByKey] at h
    split at h
    · simpa using h
    · rw [List.mem_cons] at h
      cases h with
      | inl h => exact Or.inr (by simp [h])
      | inr h =>
        cases ih h with
        | inl h => exact Or.inl h
        | inr h => exact Or.inr (by simp [h])

/-- Sorting nodes by a key does not add nodes. -/
theorem mem_sortByKey {k : MagicNode → Nat} {x : MagicNode} :
    ∀ {l : List MagicNode}, x ∈ sortByKey k l → x ∈ l := by
  intro l
  induction l with
  | nil => intro h; simp [sortByKey] at h
  | cons m ms ih =>
    intro h
    rw [show sortByKey k (m :: ms) = insertByKey k m (sortByKey k ms) from rfl] at h
    cases mem_insertByKey h with
    | inl h => simp [h]
    | inr h => simp [ih h]

/-- Every collected candidate wraps a node of the given node list. -/
theorem mem_collectCandidates {cfg : MagicConfig} {nodes : List MagicNode}
    {c : MagicCandidate} (h : c ∈ collectCandidates cfg nodes) :
    c.node ∈ nodes := by
  unfold collectCandidates at h
  rw [List.mem_map] at h
  obtain ⟨n, hn, rfl⟩ := h
  show n ∈ nodes
  split at hn
  · have := List.take_subset 1 (sortByKey (rankKey cfg) nodes) hn
    exact mem_sortByKey this
  · have := mem_sortByKey hn
    exact (List.mem_filter.mp this).1

/-- C7: for every registry, configuration and input, every candidate of
the analysis report is acyclic (the fingerprints on its root-to-node
path are pairwise distinct) and its recipe length is at most the
configured depth. -/
theorem magic_candidates_acyclic_depth_bounded (reg : List MagicOp)
    (cfg : MagicConfig) (input : List Nat) :
    ∀ c ∈ (magicAnalyzeWith reg cfg input).candidates,
      c.node.fprints.Nodup ∧ c.node.recipe.length ≤ cfg.depth := by
  intro c hc
  unfold magicAnalyzeWith at hc
  split at hc
  · exact absurd hc (by simp)
  · exact magicNodes_inv reg cfg input c.node (mem_collectCandidates hc)

/-- The candidate used to witness the acyclicity and depth bound. -/
def acyclicWitnessCandidate : MagicCandidate :=
  ⟨⟨[0], [], [([], [0])]⟩, none, false⟩

/-- Witness for C7: the acyclicity and depth-bound theorem applied to a
concrete candidate of a concrete run (empty registry, depth 0, the
one-byte input). -/
theorem magic_candidates_acyclic_depth_bounded_witness :
    acyclicWitnessCandidate ∈
      (magicAnalyzeWith [] ⟨0, false, false, none⟩ [0]).candidates ∧
    (acyclicWitnessCandidate.node.fprints.Nodup ∧
      acyclicWitnessCandidate.node.recipe.length ≤
        (⟨0, false, false, none⟩ : MagicConfig).depth) :=
  ⟨by decide,
   magic_candidates_acyclic_depth_bounded [] ⟨0, false, false, none⟩ [0]
     acyclicWitnessCandidate (by decide)⟩

/-- The wrapped jimp-read error message of BlurImage.run is never the
invalid-file-type message (their lengths differ). -/
theorem errLoadingMsg_ne (e : List Char) :
    "Error loading image. (".data ++ e ++ ")".data ≠ invalidFileTypeMsg := by
  intro h
  have hlen := congrArg List.length h
  have h1 : ("Error loading image. (".data).length = 22 := rfl
  have h2 : ((")").data).length = 1 := rfl
  have h3 : invalidFileTypeMsg.length = 18 := rfl
  rw [List.length_append, List.length_append, h1, h2, h3] at hlen
  omega

/-- The wrapped blur error message of BlurImage.run is never the
invalid-file-type message (their lengths differ). -/
theorem errBlurringMsg_ne (e : List Char) :
    "Error blurring image. (".data ++ e ++ ")".data ≠ invalidFileTypeMsg := by
  intro h
  have hlen := congrArg List.length h
  have h1 : ("Error blurring image. (".data).length = 23 := rfl
  have h2 : ((")").data).length = 1 := rfl
  have h3 : invalidFileTypeMsg.length = 18 := rfl
  rw [List.length_append, List.length_append, h1, h2, h3] at hlen
  omega

/-- C9: for every file-type oracle, every host image library and every
byte-array input, the run methods of Cover Image, Rotate Image and Blur
Image throw OperationError Invalid file type exactly when the oracle
does not identify a file type whose mime string starts with image (and
in that case the result does not depend on the image-processing host,
which is therefore never consulted). -/
theorem imageOps_invalid_file_type_iff (Img : Type)
    (magicFileType : List Nat → Option FileSig)
    (jimpCover jimpRotate : List Nat → Except (List Char) (List Nat))
    (jimpRead : List Nat → Except (List Char) Img)
    (blurAndEncode : Img → Except (List Char) (List Nat))
    (input : List Nat) :
    (coverImageRun magicFileType jimpCover input =
        Except.error (RunError.opError invalidFileTypeMsg) ↔
      fileSigIsImage (magicFileType input) = false) ∧
    (rotateImageRun magicFileType jimpRotate input =
        Except.error (RunError.opError invalidFileTypeMsg) ↔
      fileSigIsImage (magicFileType input) = false) ∧
    (blurImageRun magicFileType jimpRead blurAndEncode input =
        Except.error (RunError.opError invalidFileTypeMsg) ↔
      fileSigIsImage (magicFileType input) = false) := by
  refine ⟨?_, ?_, ?_⟩
  · unfold coverImageRun
    by_cases himg : fileSigIsImage (magicFileType input) = true
    · rw [if_pos himg]
      constructor
      · intro h
        cases hj : jimpCover input <;> rw [hj] at h <;> simp at h
      · intro h
        rw [himg] at h
        exact absurd h (by simp)
    · rw [if_neg himg]
      constructor
      · intro _
        simpa using himg
      · intro _
        rfl
  · unfold rotateImageRun
    by_cases himg : fileSigIsImage (magicFileType input) = true
    · rw [if_pos himg]
      constructor
      · intro h
        cases hj : jimpRotate input <;> rw [hj] at h <;> simp at h
      · intro h
        rw [himg] at h
        exact absurd h (by simp)
    · rw [if_neg himg]
      constructor
      · intro _
        simpa using himg
      · intro _
        rfl
  · unfold blurImageRun
    by_cases himg : fileSigIsImage (magicFileType input) = true
    · rw [if_pos himg]
      constructor
      · intro h
        cases hr : jimpRead input with
        | error e =>
          rw [hr] at h
          simp only [Except.error.injEq, RunError.opError.injEq] at h
          exact absurd h (errLoadingMsg_ne e)
        | ok img =>
          rw [hr] at h
          dsimp only at h
          cases hb : blurAndEncode img with
          | error e =>
            rw [hb] at h
            simp only [Except.error.injEq, RunError.opError.injEq] at h
            exact absurd h (errBlurringMsg_ne e)
          | ok out =>
            rw [hb] at h
            simp at h
      · intro h
        rw [himg] at h
        exact absurd h (by simp)
    · rw [if_neg himg]
      constructor
      · intro _
        simpa using himg
      · intro _
        rfl

/-- Witness for C9: the theorem applied to the oracle that identifies no
file type, concrete hosts and a concrete input yields the
invalid-file-type error for Cover Image. -/
theorem imageOps_invalid_file_type_iff_witness :
    coverImageRun (fun _ => none) (fun _ => Except.ok []) [0] =
      Except.error (RunError.opError invalidFileTypeMsg) :=
  ((imageOps_invalid_file_type_iff Unit (fun _ => none)
      (fun _ => Except.ok []) (fun _ => Except.ok [])
      (fun _ => Except.ok ()) (fun _ => Except.ok []) [0]).1).mpr (by decide)

/-- The detailed blocks of the ScanForEmbeddedFiles.run output. -/
def scanDetailBlocks (ic : Bool) (types : List EmbeddedFile) : List Char :=
  (scanReported ic types).flatMap scanEntryText

/-- The trailing false-positive note of the ScanForEmbeddedFiles.run
output (empty when no common detection was skipped). -/
def scanNoteText (ic : Bool) (types : List EmbeddedFile) : List Char :=
  if (types.filter (scanSkipsDetection ic)).length > 0 then
    scanCommonNote ((types.filter (scanSkipsDetection ic)).length)
  else []

/-- A prefix occurs in its host list. -/
theorem occursIn_of_isPrefixOf [BEq α] {s h : List α}
    (hp : s.isPrefixOf h = true) : occursIn s h = true := by
  cases h with
  | nil =>
    cases s with
    | nil => rfl
    | cons a as => simp [List.isPrefixOf] at hp
  | cons a t => simp [occursIn, hp]

/-- A list is a Boolean prefix of itself followed by anything. -/
theorem isPrefixOf_append_self [BEq α] [LawfulBEq α] :
    ∀ (s b : List α), s.isPrefixOf (s ++ b) = true := by
  intro s
  induction s with
  | nil => intro b; simp [List.isPrefixOf]
  | cons a as ih => intro b; simp [List.isPrefixOf, ih]

/-- A list occurs in any list that contains it as a contiguous middle
segment. -/
theorem occursIn_append_middle [BEq α] [LawfulBEq α] (s a b : List α) :
    occursIn s (a ++ s ++ b) = true := by
  induction a with
  | nil =>
    simp only [List.nil_append]
    exact occursIn_of_isPrefixOf (isPrefixOf_append_self s b)
  | cons x xs ih =>
    show occursIn s (x :: (xs ++ s ++ b)) = true
    simp only [occursIn]
    rw [ih, Bool.or_true]

/-- C10: for every detection list and both values of the ignore-common
argument, the ScanForEmbeddedFiles.run output contains the line No
embedded files were found exactly when no detection is reported in
detail (with the ignore-common argument set, detections whose extension
is ttf, utf16le or empty are excluded from the detailed listing by
scanReported and only counted in the trailing note).  The hypothesis
states that the phrase does not already occur in the rest of the output
(its header, detail blocks and note). -/
theorem scanForEmbeddedFiles_no_files_iff (ignoreCommon : Bool)
    (types : List EmbeddedFile)
    (h : occursIn "No embedded files were found.".data
          (scanHeader ++ scanDetailBlocks ignoreCommon types ++
            scanNoteText ignoreCommon types) = false) :
    occursIn "No embedded files were found.".data
        (scanForEmbeddedFilesRun ignoreCommon types) = true ↔
      (scanReported ignoreCommon types).length = 0 := by
  have hrun : scanForEmbeddedFilesRun ignoreCommon types =
      scanHeader ++ scanDetailBlocks ignoreCommon types ++
        (if (scanReported ignoreCommon types).length = 0 then noFilesLine
         else []) ++
        scanNoteText ignoreCommon types := rfl
  by_cases hz : (scanReported ignoreCommon types).length = 0
  · rw [hrun, if_pos hz]
    constructor
    · intro _
      exact hz
    · intro _
      have hnl : noFilesLine = ['\n'] ++ "No embedded files were found.".data := by
        decide
      have hshape : scanHeader ++ scanDetailBlocks ignoreCommon types ++
            noFilesLine ++ scanNoteText ignoreCommon types =
          ((scanHeader ++ scanDetailBlocks ignoreCommon types) ++ ['\n']) ++
            "No embedded files were found.".data ++
            scanNoteText ignoreCommon types := by
        rw [hnl]
        simp [List.append_assoc]
      rw [hshape]
      exact occursIn_append_middle _ _ _
  · rw [hrun, if_neg hz]
    constructor
    · intro hocc
      have hshape : scanHeader ++ scanDetailBlocks ignoreCommon types ++
            ([] : List Char) ++ scanNoteText ignoreCommon types =
          scanHeader ++ scanDetailBlocks ignoreCommon types ++
            scanNoteText ignoreCommon types := by
        simp
      rw [hshape, h] at hocc
      exact absurd hocc (by simp)
    · intro hzero
      exact absurd hzero hz

/-- Witness for C10: the theorem applied to one non-common detection
with the ignore-common argument set (one detailed block, so the line is
absent). -/
theorem scanForEmbeddedFiles_no_files_iff_witness :
    occursIn "No embedded files were found.".data
        (scanForEmbeddedFilesRun true
          [⟨0, "png".data, "image/png".data, "desc".data⟩]) = true ↔
      (scanReported true
        [⟨0, "png".data, "image/png".data, "desc".data⟩]).length = 0 :=
  scanForEmbeddedFiles_no_files_iff true _ (by decide)
